import Mathlib

/-!
Shallow embedding of `frb_rust/src/misc/into_into_dart.rs`.

The Rust source defines the trait `IntoIntoDart<D: IntoDart>` with a single
method `into_into_dart(self) -> D`, together with one `impl` per structural
shape (Vec, Option, RustOpaque, ZeroCopyBuffer, fixed-size array, Box,
tuples of arity 2..5) and identity impls for leaf types generated by the
macro `impl_into_into_dart_by_self!`.

Embedding choices:
* Each Rust `impl` becomes one Lean `def`.  The trait bound
  `T: IntoIntoDart<D>` on a nested type becomes an explicit function
  argument `f : T → D` (the dictionary-passing translation of a trait
  dictionary).  The bounds `D: IntoDart` and `T: DartSafe` are compile-time
  marker capabilities with no methods used by this module and no runtime
  content, so they contribute nothing to the dictionary translation.
* `Vec<T>` is `List T`; `Option<T>` is `Option T`; tuples are iterated
  products; `[T; C]` is a list together with a proof that its length is `C`.
* Machine integers: unsigned `uN` is `Fin (2 ^ N)`; signed `iN` is the
  subtype of `Int` bounded by `[-2 ^ (N-1), 2 ^ (N-1))`.  The float types
  `f32`/`f64` are carried as raw bit patterns, since the only rule touching
  them is the identity and no arithmetic is ever performed.
* The `#[cfg(...)]` conditional compilation attributes on the leaf impls
  are modelled by a `BuildConfig` record of feature flags and one
  rule-inclusion predicate per conditional group, read off the attributes
  in the source.
* For the runtime-totality property, each rule body is additionally
  embedded in the `Except String` monad (`Panics`), where a Rust panic
  would be an `Except.error`; the bodies contain no panicking operation, so
  every embedded rule is built from `Except.ok` and bind.
-/

/-- Rust `Vec<T>` impl, line 14: `self.into_iter().map(|e| e.into_into_dart()).collect()`. -/
def vec_into_into_dart {T D : Type} (f : T → D) (self : List T) : List D :=
  self.map f

/-- Rust `Option<T>` impl, line 25: `self.map(|e| e.into_into_dart())`. -/
def option_into_into_dart {T D : Type} (f : T → D) (self : Option T) : Option D :=
  self.map f

/-- Shared handle type: models `RustOpaque<T>`, a wrapper around a shared
`Arc<T>` payload; its internals are never inspected by this module. -/
structure RustOpaque (T : Type) where
  arc : T

/-- Rust `RustOpaque<T>` impl, line 35: the body returns `self` unchanged. -/
def rust_opaque_into_into_dart {T : Type} (self : RustOpaque T) : RustOpaque T :=
  self

/-- Zero-copy transport wrapper: models the tuple struct `ZeroCopyBuffer<T>`;
`x0` is its `.0` field. -/
structure ZeroCopyBuffer (T : Type) where
  x0 : T

/-- Rust `ZeroCopyBuffer<T>` impl, line 44: `ZeroCopyBuffer(self.0.into_into_dart())`. -/
def zero_copy_buffer_into_into_dart {T D : Type} (f : T → D)
    (self : ZeroCopyBuffer T) : ZeroCopyBuffer D :=
  ZeroCopyBuffer.mk (f self.x0)

/-- Fixed-size array `[T; C]`: a list of elements with length exactly `C`. -/
abbrev RustArray (T : Type) (C : Nat) : Type :=
  { l : List T // l.length = C }

/-- Rust `[T; C]` impl, line 55: the body returns `self` unchanged. -/
def array_into_into_dart {T : Type} {C : Nat} (self : RustArray T C) : RustArray T C :=
  self

/-- Exclusively-owned heap box: models `Box<T>`; `val` is the pointee. -/
structure Box (T : Type) where
  val : T

/-- Rust `Box<T>` impl, line 65: the body is `*self` (move the pointee out). -/
def box_into_into_dart {T : Type} (self : Box T) : T :=
  self.val

/-- Rust `(A, B)` impl, line 75: `(self.0.into_into_dart(), self.1.into_into_dart())`. -/
def tuple2_into_into_dart {A AD B BD : Type} (fa : A → AD) (fb : B → BD)
    (self : A × B) : AD × BD :=
  (fa self.1, fb self.2)

/-- Rust `(A, B, C)` impl, line 86: converts fields `.0`, `.1`, `.2` in place. -/
def tuple3_into_into_dart {A AD B BD C CD : Type}
    (fa : A → AD) (fb : B → BD) (fc : C → CD)
    (self : A × B × C) : AD × BD × CD :=
  (fa self.1, fb self.2.1, fc self.2.2)

/-- Rust `(A, B, C, D)` impl, line 103: converts fields `.0` .. `.3` in place. -/
def tuple4_into_into_dart {A AD B BD C CD D DD : Type}
    (fa : A → AD) (fb : B → BD) (fc : C → CD) (fd : D → DD)
    (self : A × B × C × D) : AD × BD × CD × DD :=
  (fa self.1, fb self.2.1, fc self.2.2.1, fd self.2.2.2)

/-- Rust `(A, B, C, D, E)` impl, line 122: converts fields `.0` .. `.4` in place. -/
def tuple5_into_into_dart {A AD B BD C CD D DD E ED : Type}
    (fa : A → AD) (fb : B → BD) (fc : C → CD) (fd : D → DD) (fe : E → ED)
    (self : A × B × C × D × E) : AD × BD × CD × DD × ED :=
  (fa self.1, fb self.2.1, fc self.2.2.1, fd self.2.2.2.1, fe self.2.2.2.2)

/-- Rust `u8`. -/
abbrev u8 : Type := Fin (2 ^ 8)

/-- Rust `u16`. -/
abbrev u16 : Type := Fin (2 ^ 16)

/-- Rust `u32`. -/
abbrev u32 : Type := Fin (2 ^ 32)

/-- Rust `u64`. -/
abbrev u64 : Type := Fin (2 ^ 64)

/-- Rust `usize` (pointer-sized; modelled at 64-bit width — the width plays
no role in the identity rule). -/
abbrev usize : Type := Fin (2 ^ 64)

/-- Rust `i8`. -/
abbrev i8 : Type := { z : Int // -(2 ^ 7) ≤ z ∧ z < 2 ^ 7 }

/-- Rust `i16`. -/
abbrev i16 : Type := { z : Int // -(2 ^ 15) ≤ z ∧ z < 2 ^ 15 }

/-- Rust `i32`. -/
abbrev i32 : Type := { z : Int // -(2 ^ 31) ≤ z ∧ z < 2 ^ 31 }

/-- Rust `i64`. -/
abbrev i64 : Type := { z : Int // -(2 ^ 63) ≤ z ∧ z < 2 ^ 63 }

/-- Rust `f32` as its 32-bit pattern: the only rule for it is the identity,
which never interprets the bits. -/
structure f32 where
  bits : Fin (2 ^ 32)

/-- Rust `f64` as its 64-bit pattern. -/
structure f64 where
  bits : Fin (2 ^ 64)

/-- `impl_into_into_dart_by_self!(u8)`, line 167: the body returns `self`. -/
def u8_into_into_dart (self : u8) : u8 := self

/-- `impl_into_into_dart_by_self!(i8)`, line 168. -/
def i8_into_into_dart (self : i8) : i8 := self

/-- `impl_into_into_dart_by_self!(u16)`, line 169. -/
def u16_into_into_dart (self : u16) : u16 := self

/-- `impl_into_into_dart_by_self!(i16)`, line 170. -/
def i16_into_into_dart (self : i16) : i16 := self

/-- `impl_into_into_dart_by_self!(u32)`, line 171. -/
def u32_into_into_dart (self : u32) : u32 := self

/-- `impl_into_into_dart_by_self!(i32)`, line 172. -/
def i32_into_into_dart (self : i32) : i32 := self

/-- `impl_into_into_dart_by_self!(u64)`, line 173. -/
def u64_into_into_dart (self : u64) : u64 := self

/-- `impl_into_into_dart_by_self!(i64)`, line 174. -/
def i64_into_into_dart (self : i64) : i64 := self

/-- `impl_into_into_dart_by_self!(f32)`, line 175. -/
def f32_into_into_dart (self : f32) : f32 := self

/-- `impl_into_into_dart_by_self!(f64)`, line 176. -/
def f64_into_into_dart (self : f64) : f64 := self

/-- `impl_into_into_dart_by_self!(bool)`, line 177. -/
def bool_into_into_dart (self : Bool) : Bool := self

/-- `impl_into_into_dart_by_self!(())`, line 178. -/
def unit_into_into_dart (self : Unit) : Unit := self

/-- `impl_into_into_dart_by_self!(usize)`, line 179. -/
def usize_into_into_dart (self : usize) : usize := self

/-- `impl_into_into_dart_by_self!(String)`, line 180. -/
def string_into_into_dart (self : String) : String := self

/-- Build configuration: the feature flags and target test that appear in
the `#[cfg(...)]` attributes of the source, plus a hypothetical
`feature_backtrace` flag for the capability the spec says would gate the
`backtrace::Backtrace` rule (the source has no such attribute). -/
structure BuildConfig where
  feature_uuid : Bool
  feature_chrono : Bool
  feature_backtrace : Bool
  target_family_wasm : Bool

/-- Line 181: `#[cfg(feature = "uuid")]` guards `impl_into_into_dart_by_self!(uuid::Uuid)`. -/
def uuid_rule_included (cfg : BuildConfig) : Bool :=
  cfg.feature_uuid

/-- Line 186: `#[cfg(feature = "chrono")]` guards the `chrono_impls` module
(Duration, NaiveDateTime, DateTime of Local and of Utc). -/
def chrono_rules_included (cfg : BuildConfig) : Bool :=
  cfg.feature_chrono

/-- Line 184: `impl_into_into_dart_by_self!(backtrace::Backtrace)` carries no
`#[cfg]` attribute in the source, so its inclusion does not read the
configuration at all. -/
def backtrace_rule_included (_cfg : BuildConfig) : Bool :=
  true

/-- Line 183 group: `#[cfg(not(target_family = "wasm"))]` guards the
`allo_isolate::ffi::DartCObject` identity rule. -/
def dart_cobject_rule_included (cfg : BuildConfig) : Bool :=
  !cfg.target_family_wasm

/-- Line 183 group: `#[cfg(target_family = "wasm")]` guards the
`wasm_bindgen::JsValue` identity rule. -/
def js_value_rule_included (cfg : BuildConfig) : Bool :=
  cfg.target_family_wasm

/-- Line 179: the `usize` identity rule carries no `#[cfg]` attribute. -/
def usize_rule_included (_cfg : BuildConfig) : Bool :=
  true

/-- Line 175: the `f32` identity rule carries no `#[cfg]` attribute. -/
def f32_rule_included (_cfg : BuildConfig) : Bool :=
  true

/-- Line 176: the `f64` identity rule carries no `#[cfg]` attribute. -/
def f64_rule_included (_cfg : BuildConfig) : Bool :=
  true

/-- Outcome of running a conversion body at runtime: `Except.error` stands
for a Rust panic, `Except.ok` for normal return. -/
abbrev Panics (A : Type) : Type :=
  Except String A

/-- The `Vec` rule body in the panic-aware embedding: the iterator runs the
element conversion left to right and a panic in an element aborts the rest. -/
def vec_into_into_dartE {T D : Type} (f : T → Panics D) : List T → Panics (List D)
  | [] => Except.ok []
  | x :: xs => do
    let y ← f x
    let ys ← vec_into_into_dartE f xs
    Except.ok (y :: ys)

/-- The `Option` rule body in the panic-aware embedding. -/
def option_into_into_dartE {T D : Type} (f : T → Panics D) :
    Option T → Panics (Option D)
  | none => Except.ok none
  | some x => do
    let y ← f x
    Except.ok (some y)

/-- The `RustOpaque` rule body in the panic-aware embedding: returning `self`
cannot panic. -/
def rust_opaque_into_into_dartE {T : Type} (self : RustOpaque T) :
    Panics ( RustOpaque T) :=
  Except.ok self

/-- The `ZeroCopyBuffer` rule body in the panic-aware embedding. -/
def zero_copy_buffer_into_into_dartE {T D : Type} (f : T → Panics D)
    (self : ZeroCopyBuffer T) : Panics (ZeroCopyBuffer D) := do
  let y ← f self.x0
  Except.ok (ZeroCopyBuffer.mk y)

/-- The array rule body in the panic-aware embedding: returning `self`
cannot panic. -/
def array_into_into_dartE {T : Type} {C : Nat} (self : RustArray T C) :
    Panics (RustArray T C) :=
  Except.ok self

/-- The `Box` rule body in the panic-aware embedding: the dereference `*self`
of a valid box cannot panic. -/
def box_into_into_dartE {T : Type} (self : Box T) : Panics T :=
  Except.ok self.val

/-- The pair rule body in the panic-aware embedding. -/
def tuple2_into_into_dartE {A AD B BD : Type}
    (fa : A → Panics AD) (fb : B → Panics BD) (self : A × B) :
    Panics (AD × BD) := do
  let a ← fa self.1
  let b ← fb self.2
  Except.ok (a, b)

/-- The triple rule body in the panic-aware embedding. -/
def tuple3_into_into_dartE {A AD B BD C CD : Type}
    (fa : A → Panics AD) (fb : B → Panics BD) (fc : C → Panics CD)
    (self : A × B × C) : Panics (AD × BD × CD) := do
  let a ← fa self.1
  let b ← fb self.2.1
  let c ← fc self.2.2
  Except.ok (a, b, c)

/-- The quadruple rule body in the panic-aware embedding. -/
def tuple4_into_into_dartE {A AD B BD C CD D DD : Type}
    (fa : A → Panics AD) (fb : B → Panics BD) (fc : C → Panics CD)
    (fd : D → Panics DD) (self : A × B × C × D) :
    Panics (AD × BD × CD × DD) := do
  let a ← fa self.1
  let b ← fb self.2.1
  let c ← fc self.2.2.1
  let d ← fd self.2.2.2
  Except.ok (a, b, c, d)

/-- The quintuple rule body in the panic-aware embedding. -/
def tuple5_into_into_dartE {A AD B BD C CD D DD E ED : Type}
    (fa : A → Panics AD) (fb : B → Panics BD) (fc : C → Panics CD)
    (fd : D → Panics DD) (fe : E → Panics ED) (self : A × B × C × D × E) :
    Panics (AD × BD × CD × DD × ED) := do
  let a ← fa self.1
  let b ← fb self.2.1
  let c ← fc self.2.2.1
  let d ← fd self.2.2.2.1
  let e ← fe self.2.2.2.2
  Except.ok (a, b, c, d, e)

/-- A leaf identity rule body in the panic-aware embedding: returning `self`
cannot panic.  All bodies generated by `impl_into_into_dart_by_self!` are
this same body, so one embedding serves every leaf type. -/
def leaf_into_into_dartE {T : Type} (self : T) : Panics T :=
  Except.ok self

/-- The Rust literal `42i32`. -/
def i32_lit_42 : i32 :=
  ⟨42, by decide⟩

/-- C1: for every vector whose element type has a conversion, the `Vec` rule
maps the element conversion over the elements, preserving length and order;
converting `[a, b, c]` yields `[convert a, convert b, convert c]`. -/
theorem vec_rule_maps_preserving_length_and_order (T D : Type) (f : T → D)
    (a b c : T) (xs : List T) :
    vec_into_into_dart f xs = xs.map f ∧
    (vec_into_into_dart f xs).length = xs.length ∧
    (∀ i : Nat, (vec_into_into_dart f xs)[i]? = (xs[i]?).map f) ∧
    vec_into_into_dart f [a, b, c] = [f a, f b, f c] := by
  refine ⟨rfl, by simp [vec_into_into_dart], fun i => ?_, rfl⟩
  simp [vec_into_into_dart]

/-- C2: the `Option` rule preserves presence and absence: `none` converts to
`none` and `some x` converts to `some (convert x)`. -/
theorem option_rule_preserves_presence (T D : Type) (f : T → D) (x : T) :
    option_into_into_dart f (none : Option T) = none ∧
    option_into_into_dart f (some x) = some (f x) :=
  ⟨rfl, rfl⟩

/-- C3: each tuple rule of arity 2..5 converts every slot independently and
keeps each converted slot in its original position, preserving arity. -/
theorem tuple_rules_convert_each_slot_in_place (A AD B BD C CD D DD E ED : Type)
    (fa : A → AD) (fb : B → BD) (fc : C → CD) (fd : D → DD) (fe : E → ED)
    (a : A) (b : B) (c : C) (d : D) (e : E) :
    tuple2_into_into_dart fa fb (a, b) = (fa a, fb b) ∧
    tuple3_into_into_dart fa fb fc (a, b, c) = (fa a, fb b, fc c) ∧
    tuple4_into_into_dart fa fb fc fd (a, b, c, d) = (fa a, fb b, fc c, fd d) ∧
    tuple5_into_into_dart fa fb fc fd fe (a, b, c, d, e) =
      (fa a, fb b, fc c, fd d, fe e) :=
  ⟨rfl, rfl, rfl, rfl⟩

/-- C4: for every primitive leaf type named by the spec (8/16/32/64-bit
signed and unsigned integers, boolean, unit, String) the identity rule is a
true no-op: `convert x = x` for every value `x`. -/
theorem leaf_rules_are_true_no_ops :
    (∀ x : u8, u8_into_into_dart x = x) ∧
    (∀ x : i8, i8_into_into_dart x = x) ∧
    (∀ x : u16, u16_into_into_dart x = x) ∧
    (∀ x : i16, i16_into_into_dart x = x) ∧
    (∀ x : u32, u32_into_into_dart x = x) ∧
    (∀ x : i32, i32_into_into_dart x = x) ∧
    (∀ x : u64, u64_into_into_dart x = x) ∧
    (∀ x : i64, i64_into_into_dart x = x) ∧
    (∀ x : Bool, bool_into_into_dart x = x) ∧
    (∀ x : Unit, unit_into_into_dart x = x) ∧
    (∀ x : String, string_into_into_dart x = x) :=
  ⟨fun _ => rfl, fun _ => rfl, fun _ => rfl, fun _ => rfl, fun _ => rfl,
   fun _ => rfl, fun _ => rfl, fun _ => rfl, fun _ => rfl, fun _ => rfl,
   fun _ => rfl⟩

/-- C5: converting a box yields the bare pointee, not a box; in particular
converting `Box::new(42i32)` yields `42i32`. -/
theorem box_rule_yields_bare_value (T : Type) (v : T) :
    box_into_into_dart (Box.mk v) = v ∧
    box_into_into_dart (Box.mk i32_lit_42) = i32_lit_42 :=
  ⟨rfl, rfl⟩

/-- C6: the zero-copy buffer rule unwraps the buffer, converts the interior,
and rewraps it: `convert (ZeroCopyBuffer x) = ZeroCopyBuffer (convert x)`. -/
theorem zero_copy_buffer_rule_rewraps_converted_interior (T D : Type)
    (f : T → D) (x : T) (b : ZeroCopyBuffer T) :
    zero_copy_buffer_into_into_dart f (ZeroCopyBuffer.mk x) =
      ZeroCopyBuffer.mk (f x) ∧
    (zero_copy_buffer_into_into_dart f b).x0 = f b.x0 :=
  ⟨rfl, rfl⟩

/-- C7: conversion is the identity on already-boundary-representable
wrappers: a shared handle converts to the very same handle with untouched
payload, and a fixed-size array converts to the identical array, length and
element order preserved; in particular `[1u8, 2u8, 3u8]` converts to itself. -/
theorem passthrough_rules_are_identity (T : Type) (C : Nat)
    (h : RustOpaque T) (a : RustArray T C) :
    rust_opaque_into_into_dart h = h ∧
    (rust_opaque_into_into_dart h).arc = h.arc ∧
    array_into_into_dart a = a ∧
    (array_into_into_dart a).val.length = C ∧
    (array_into_into_dart a).val = a.val ∧
    array_into_into_dart (⟨[1, 2, 3], rfl⟩ : RustArray u8 3) =
      ⟨[1, 2, 3], rfl⟩ :=
  ⟨rfl, rfl, rfl, a.property, rfl, rfl⟩

/-- C8: no conversion rule has an error path: in the panic-aware embedding,
every rule applied to panic-free nested conversions returns `Except.ok` of
the fully converted value on every input — it never fails, never panics, and
never produces a partially converted value. -/
theorem rules_have_no_error_path (T D A AD B BD C CD Dt DD E ED : Type)
    (f : T → D) (fa : A → AD) (fb : B → BD) (fc : C → CD) (fd : Dt → DD)
    (fe : E → ED) :
    (∀ xs : List T, vec_into_into_dartE (fun x => Except.ok (f x)) xs =
      Except.ok (vec_into_into_dart f xs)) ∧
    (∀ o : Option T, option_into_into_dartE (fun x => Except.ok (f x)) o =
      Except.ok (option_into_into_dart f o)) ∧
    (∀ h : RustOpaque T, rust_opaque_into_into_dartE h =
      Except.ok (rust_opaque_into_into_dart h)) ∧
    (∀ b : ZeroCopyBuffer T,
      zero_copy_buffer_into_into_dartE (fun x => Except.ok (f x)) b =
        Except.ok (zero_copy_buffer_into_into_dart f b)) ∧
    (∀ (n : Nat) (arr : RustArray T n), array_into_into_dartE arr =
      Except.ok (array_into_into_dart arr)) ∧
    (∀ bx : Box T, box_into_into_dartE bx =
      Except.ok (box_into_into_dart bx)) ∧
    (∀ p : A × B,
      tuple2_into_into_dartE (fun x => Except.ok (fa x))
        (fun x => Except.ok (fb x)) p =
        Except.ok (tuple2_into_into_dart fa fb p)) ∧
    (∀ p : A × B × C,
      tuple3_into_into_dartE (fun x => Except.ok (fa x))
        (fun x => Except.ok (fb x)) (fun x => Except.ok (fc x)) p =
        Except.ok (tuple3_into_into_dart fa fb fc p)) ∧
    (∀ p : A × B × C × Dt,
      tuple4_into_into_dartE (fun x => Except.ok (fa x))
        (fun x => Except.ok (fb x)) (fun x => Except.ok (fc x))
        (fun x => Except.ok (fd x)) p =
        Except.ok (tuple4_into_into_dart fa fb fc fd p)) ∧
    (∀ p : A × B × C × Dt × E,
      tuple5_into_into_dartE (fun x => Except.ok (fa x))
        (fun x => Except.ok (fb x)) (fun x => Except.ok (fc x))
        (fun x => Except.ok (fd x)) (fun x => Except.ok (fe x)) p =
        Except.ok (tuple5_into_into_dart fa fb fc fd fe p)) ∧
    (∀ x : T, leaf_into_into_dartE x = Except.ok x) := by
  refine ⟨?_, ?_, fun _ => rfl, fun _ => rfl, fun _ _ => rfl, fun _ => rfl,
    fun _ => rfl, fun _ => rfl, fun _ => rfl, fun _ => rfl, fun _ => rfl⟩
  · intro xs
    induction xs with
    | nil => rfl
    | cons x xs ih =>
      simp only [vec_into_into_dartE, ih]
      rfl
  · intro o
    cases o <;> rfl

/-- C9 counterexample: the claim says the `backtrace::Backtrace` identity
rule is included only when a corresponding build feature is enabled, but in
the configuration with every feature disabled the rule is still included. -/
theorem backtrace_rule_gating_counterexample :
    backtrace_rule_included (BuildConfig.mk false false false false) = true ∧
    (BuildConfig.mk false false false false).feature_backtrace = false :=
  ⟨rfl, rfl⟩

/-- C9 amended: the `backtrace::Backtrace` identity rule is included in
every build configuration unconditionally, unlike the `uuid::Uuid` rule
(gated on the `uuid` feature) and the `chrono` rules (gated on the `chrono`
feature). -/
theorem backtrace_rule_included_unconditionally (cfg : BuildConfig) :
    backtrace_rule_included cfg = true ∧
    uuid_rule_included cfg = cfg.feature_uuid ∧
    chrono_rules_included cfg = cfg.feature_chrono :=
  ⟨rfl, rfl, rfl⟩

/-- C10: identity rules also exist unconditionally for `usize`, `f32`, and
`f64`: they are included in every build configuration and are true no-ops. -/
theorem extra_leaf_rules_unconditional_identity :
    (∀ cfg : BuildConfig, usize_rule_included cfg = true ∧
      f32_rule_included cfg = true ∧ f64_rule_included cfg = true) ∧
    (∀ x : usize, usize_into_into_dart x = x) ∧
    (∀ x : f32, f32_into_into_dart x = x) ∧
    (∀ x : f64, f64_into_into_dart x = x) :=
  ⟨fun _ => ⟨rfl, rfl, rfl⟩, fun _ => rfl, fun _ => rfl, fun _ => rfl⟩
